import Mathlib

/-!
Shallow embedding of `src/src/App.tsx` from the radio-station-broadcast
repository: the transcript data model, `getTranscriptText` (the spec's
`extractText`), `parseJsonFile` and `processAudio`, together with proofs of
the specification's claims about them.  JavaScript truthiness and the
runtime behaviour of `Array.prototype.join` on missing fields are modelled
explicitly, since the claims turn on them.
-/

/-- One element of `TranscriptData.segments` (`App.tsx`, the
`TranscriptData` interface).  In the running program a segment may lack its
`text` field (the TypeScript annotation is not enforced at runtime), so
`text` is modelled as optional; reading a missing field yields `undefined`,
modelled by `none`. -/
structure Segment where
  text : Option String
  speaker : Option String := none
  timestamp : Option String := none
  deriving Repr, DecidableEq

/-- The parsed transcript document (`App.tsx`, interface `TranscriptData`):
both fields optional. -/
structure TranscriptData where
  segments : Option (List Segment)
  text : Option String
  deriving Repr, DecidableEq

/-- The processing state machine values (`App.tsx`, type `ProcessingStep`). -/
inductive ProcessingStep where
  | idle
  | parsing
  | generating
  | combining
  | complete
  | error
  deriving Repr, DecidableEq

/-- JavaScript truthiness of an optional string: `undefined` and the empty
string are both falsy.  This is the test `if (transcript.text)` performs. -/
def truthyStr : Option String → Bool
  | none => false
  | some s => s ≠ ""

/-- `segment.text` as the running code reads it: a missing field reads as
`undefined`, which `Array.prototype.join` renders as the empty string. -/
def segText (s : Segment) : String := s.text.getD ""

/-- `getTranscriptText` (`App.tsx` lines 68-80), the spec's `extractText`.
It is a function of the component's `transcript` state field.  Note the
source's `if (transcript.text)` is a truthiness test and
`if (transcript.segments)` is true for any array, empty included. -/
def getTranscriptText (transcript : Option TranscriptData) : String :=
  match transcript with
  | none => ""
  | some t =>
    if truthyStr t.text then t.text.getD ""
    else
      match t.segments with
      | some segs => String.intercalate " " (segs.map segText)
      | none => ""

/-- A file's byte content.  Uploaded assets are modelled by their bytes,
which is all the claims depend on. -/
abbrev FileBytes := List Nat

/-- The component state the claims are about (`App.tsx` lines 22-27): the
three upload slots, the parsed transcript, the processing step, and the
final audio blob (`finalAudioUrl` stands for the blob the object URL
names). -/
structure AppState where
  jsonFile : Option FileBytes
  introFile : Option FileBytes
  outroFile : Option FileBytes
  transcript : Option TranscriptData
  processingStep : ProcessingStep
  finalAudioUrl : Option FileBytes
  deriving Repr, DecidableEq

/-- `parseJsonFile` (`App.tsx` lines 57-66) as a state transformer.
`JSON.parse` is a host primitive; its outcome on the file's text is passed
in as `parsed` (`none` means the content is not parseable as JSON, so
`JSON.parse` throws).  On success the document is stored via
`setTranscript`; on failure the catch branch sets the `error` step and
assigns nothing else. -/
def parseJsonFile (parsed : Option TranscriptData) (st : AppState) : AppState :=
  match parsed with
  | some data => { st with transcript := some data }
  | none => { st with processingStep := ProcessingStep.error }

/-- The observable outcome of one `processAudio` call: whether the blocking
`alert` fired, the processing steps assigned in order during the call, and
the state after the call returns. -/
structure ProcessOutcome where
  alerted : Bool
  stepsVisited : List ProcessingStep
  final : AppState
  deriving Repr, DecidableEq

/-- `processAudio` (`App.tsx` lines 82-106).  The guard
`if (!jsonFile || !introFile || !outroFile)` alerts and returns early;
otherwise the body assigns `parsing`, `generating`, `combining` (each
followed by a timer wait that performs no work and cannot throw), then
stores the intro file's blob as the final audio and assigns `complete`. -/
def processAudio (st : AppState) : ProcessOutcome :=
  if st.jsonFile.isNone || st.introFile.isNone || st.outroFile.isNone then
    { alerted := true, stepsVisited := [], final := st }
  else
    let st1 := { st with processingStep := ProcessingStep.parsing }
    let st2 := { st1 with processingStep := ProcessingStep.generating }
    let st3 := { st2 with processingStep := ProcessingStep.combining }
    let st4 := { st3 with finalAudioUrl := st.introFile,
                          processingStep := ProcessingStep.complete }
    { alerted := false,
      stepsVisited := [ProcessingStep.parsing, ProcessingStep.generating,
                       ProcessingStep.combining, ProcessingStep.complete],
      final := st4 }

/-- The fixed download filename, from the anchor attribute
`download="radio-show.mp3"` in the final-audio section of `App.tsx`. -/
def downloadFilename : String := "radio-show.mp3"

/-- `getTranscriptText` as the component invokes it: it reads the
`transcript` state field, returns a string, and leaves the state as is. -/
def getTranscriptTextApp (st : AppState) : String × AppState :=
  (getTranscriptText st.transcript, st)

/-- The specification's joined-segments formula, written from its words:
`t1 + " " + t2 + ... + " " + tn`, empty for `n = 0`. -/
def joinSpec : List String → String
  | [] => ""
  | [t] => t
  | t :: ts => t ++ " " ++ joinSpec ts

theorem intercalate_go_join (l : List String) : ∀ acc : String,
    String.intercalate.go acc " " l = joinSpec (acc :: l) := by
  induction l with
  | nil => intro acc; rfl
  | cons a t ih =>
    intro acc
    show String.intercalate.go (acc ++ " " ++ a) " " t = joinSpec (acc :: a :: t)
    rw [ih (acc ++ " " ++ a)]
    cases t with
    | nil => rfl
    | cons b t' => simp [joinSpec, String.append_assoc]

theorem intercalate_eq_joinSpec (l : List String) :
    String.intercalate " " l = joinSpec l := by
  cases l with
  | nil => rfl
  | cons a t => exact intercalate_go_join t a

/-- C1: for every document of shape `{text: s}` (segments absent), the
extractor returns exactly `s`, verbatim, including when `s` is the empty
string. -/
theorem C1_text_verbatim (s : String) :
    getTranscriptText (some { segments := none, text := some s }) = s := by
  by_cases h : s = ""
  · subst h; rfl
  · simp [getTranscriptText, truthyStr, h]

/-- C2: when `text` is absent and `segments` is `[s1, ..., sn]`, the
extractor returns `t1 + " " + t2 + ... + " " + tn` where `ti` is `si`'s
`text` field, a segment lacking that field contributing the empty string at
its position; `n = 0` yields the empty string. -/
theorem C2_segments_joined (segs : List Segment) :
    getTranscriptText (some { segments := some segs, text := none }) =
      joinSpec (segs.map segText) := by
  simp [getTranscriptText, truthyStr, intercalate_eq_joinSpec]

/-- C3 fails as stated: a document having both `text` (the empty string)
and `segments` present, on which the extractor returns `"B"` from the
segments rather than the `text` field — the truthiness test
`if (transcript.text)` rejects the empty string. -/
theorem C3_counterexample :
    (TranscriptData.text
        { segments := some [{ text := some "B" }], text := some "" } = some "") ∧
      (TranscriptData.segments
        { segments := some [{ text := some "B" }], text := some "" }).isSome = true ∧
      getTranscriptText
        (some { segments := some [{ text := some "B" }], text := some "" }) = "B" ∧
      ("B" : String) ≠ "" :=
  ⟨rfl, rfl, rfl, by decide⟩

/-- C3 amended: for every document in which both `text` and `segments` are
present, if `text` is non-empty the extractor returns `text` and ignores
the segments (an empty `text` instead falls through to the segments); in
particular `extractText {text: "A", segments: [{text: "B"}]}` returns
`"A"`. -/
theorem C3_text_wins_nonempty (s : String) (segs : List Segment) (h : s ≠ "") :
    getTranscriptText (some { segments := some segs, text := some s }) = s := by
  simp [getTranscriptText, truthyStr, h]

/-- C3 witness: the amended rule at the spec's own example. -/
theorem C3_text_wins_witness :
    ("A" : String) ≠ "" ∧
      getTranscriptText
        (some { segments := some [{ text := some "B" }], text := some "A" }) = "A" :=
  ⟨by decide, C3_text_wins_nonempty "A" [{ text := some "B" }] (by decide)⟩

/-- C4: the extractor on an absent document and on the empty object (no
`text`, no `segments`) both return the empty string. -/
theorem C4_null_and_empty :
    getTranscriptText none = "" ∧
      getTranscriptText (some { segments := none, text := none }) = "" :=
  ⟨rfl, rfl⟩

/-- C5: on content that is not parseable as JSON, `parseJsonFile` moves the
processing state to the terminal `error` state and produces no transcript
document from that content (the stored transcript is exactly what it was
before). -/
theorem C5_parse_failure (st : AppState) :
    (parseJsonFile none st).processingStep = ProcessingStep.error ∧
      (parseJsonFile none st).transcript = st.transcript :=
  ⟨rfl, rfl⟩

/-- C6: with transcript, intro and outro all uploaded, `processAudio` steps
through parsing, generating, combining, complete in that order and ends
with a downloadable asset, offered as `radio-show.mp3`, byte-identical to
the uploaded intro file. -/
theorem C6_end_to_end (st : AppState) (intro : FileBytes)
    (hj : st.jsonFile.isSome) (hi : st.introFile = some intro)
    (ho : st.outroFile.isSome) :
    (processAudio st).stepsVisited =
        [ProcessingStep.parsing, ProcessingStep.generating,
         ProcessingStep.combining, ProcessingStep.complete] ∧
      (processAudio st).final.finalAudioUrl = some intro ∧
      (processAudio st).final.processingStep = ProcessingStep.complete ∧
      downloadFilename = "radio-show.mp3" := by
  obtain ⟨j, hj⟩ := Option.isSome_iff_exists.mp hj
  obtain ⟨o, ho⟩ := Option.isSome_iff_exists.mp ho
  refine ⟨?_, ?_, ?_, rfl⟩ <;> simp [processAudio, hj, hi, ho]

/-- C6 witness: the end-to-end run on concrete uploads. -/
theorem C6_end_to_end_witness :
    (processAudio { jsonFile := some [123], introFile := some [1, 2, 3],
                    outroFile := some [9], transcript := none,
                    processingStep := ProcessingStep.idle,
                    finalAudioUrl := none }).stepsVisited =
        [ProcessingStep.parsing, ProcessingStep.generating,
         ProcessingStep.combining, ProcessingStep.complete] ∧
      (processAudio { jsonFile := some [123], introFile := some [1, 2, 3],
                      outroFile := some [9], transcript := none,
                      processingStep := ProcessingStep.idle,
                      finalAudioUrl := none }).final.finalAudioUrl = some [1, 2, 3] ∧
      (processAudio { jsonFile := some [123], introFile := some [1, 2, 3],
                      outroFile := some [9], transcript := none,
                      processingStep := ProcessingStep.idle,
                      finalAudioUrl := none }).final.processingStep =
        ProcessingStep.complete ∧
      downloadFilename = "radio-show.mp3" :=
  C6_end_to_end _ [1, 2, 3] rfl rfl rfl

/-- C7: when any of the three required uploads is missing, `processAudio`
blocks with the alert and returns: the state is returned unchanged (so in
particular the `error` state is not entered, no step is assigned and no
output is produced). -/
theorem C7_missing_upload_blocks (st : AppState)
    (h : st.jsonFile = none ∨ st.introFile = none ∨ st.outroFile = none) :
    processAudio st = { alerted := true, stepsVisited := [], final := st } := by
  rcases h with h | h | h <;> simp [processAudio, h]

/-- C7 witness: a state missing the transcript upload is blocked and left
unchanged. -/
theorem C7_missing_upload_witness :
    processAudio { jsonFile := none, introFile := some [5], outroFile := none,
                   transcript := none, processingStep := ProcessingStep.idle,
                   finalAudioUrl := none } =
      { alerted := true, stepsVisited := [],
        final := { jsonFile := none, introFile := some [5], outroFile := none,
                   transcript := none, processingStep := ProcessingStep.idle,
                   finalAudioUrl := none } } :=
  C7_missing_upload_blocks _ (Or.inl rfl)

/-- C8: the extractor is a pure, deterministic function of its input: equal
documents yield equal strings, and invoking it through the component reads
the `transcript` field and leaves the whole state untouched. -/
theorem C8_pure_deterministic :
    (∀ d₁ d₂ : Option TranscriptData, d₁ = d₂ →
        getTranscriptText d₁ = getTranscriptText d₂) ∧
      ∀ st : AppState, (getTranscriptTextApp st).2 = st :=
  ⟨fun _ _ h => h ▸ rfl, fun _ => rfl⟩

/-- C8 witness: determinism and state preservation at a concrete document
and state. -/
theorem C8_pure_deterministic_witness :
    getTranscriptText (some { segments := none, text := some "w" }) =
        getTranscriptText (some { segments := none, text := some "w" }) ∧
      (getTranscriptTextApp { jsonFile := some [7], introFile := none,
                              outroFile := none,
                              transcript := some { segments := none,
                                                   text := some "w" },
                              processingStep := ProcessingStep.idle,
                              finalAudioUrl := none }).2 =
        { jsonFile := some [7], introFile := none, outroFile := none,
          transcript := some { segments := none, text := some "w" },
          processingStep := ProcessingStep.idle, finalAudioUrl := none } :=
  ⟨C8_pure_deterministic.1 _ _ rfl, C8_pure_deterministic.2 _⟩

/-- C9: a failed parse never overwrites or clears an earlier successfully
parsed transcript document: it is still stored unchanged afterwards. -/
theorem C9_failed_parse_frame (st : AppState) (d : TranscriptData)
    (h : st.transcript = some d) :
    (parseJsonFile none st).transcript = some d := by
  simpa [parseJsonFile] using h

/-- C9 witness: a concrete stored document survives a failed parse. -/
theorem C9_failed_parse_witness :
    (parseJsonFile none
        { jsonFile := some [2], introFile := none, outroFile := none,
          transcript := some { segments := none, text := some "kept" },
          processingStep := ProcessingStep.idle,
          finalAudioUrl := none }).transcript =
      some { segments := none, text := some "kept" } :=
  C9_failed_parse_frame _ _ rfl

/-- C10: with all three uploads present the body of `processAudio` performs
only state assignments and timer waits, so the call never alerts, never
assigns the `error` step, and terminates in the `complete` state. -/
theorem C10_no_error_path (st : AppState)
    (hj : st.jsonFile.isSome) (hi : st.introFile.isSome)
    (ho : st.outroFile.isSome) :
    (processAudio st).alerted = false ∧
      (processAudio st).final.processingStep = ProcessingStep.complete ∧
      ProcessingStep.error ∉ (processAudio st).stepsVisited ∧
      (processAudio st).final.processingStep ≠ ProcessingStep.error := by
  obtain ⟨j, hj⟩ := Option.isSome_iff_exists.mp hj
  obtain ⟨i, hi⟩ := Option.isSome_iff_exists.mp hi
  obtain ⟨o, ho⟩ := Option.isSome_iff_exists.mp ho
  refine ⟨?_, ?_, ?_, ?_⟩ <;> simp [processAudio, hj, hi, ho]

/-- C10 witness: a fully uploaded concrete state completes without error. -/
theorem C10_no_error_witness :
    (processAudio { jsonFile := some [8], introFile := some [6],
                    outroFile := some [4], transcript := none,
                    processingStep := ProcessingStep.idle,
                    finalAudioUrl := none }).alerted = false ∧
      (processAudio { jsonFile := some [8], introFile := some [6],
                      outroFile := some [4], transcript := none,
                      processingStep := ProcessingStep.idle,
                      finalAudioUrl := none }).final.processingStep =
        ProcessingStep.complete ∧
      ProcessingStep.error ∉
        (processAudio { jsonFile := some [8], introFile := some [6],
                        outroFile := some [4], transcript := none,
                        processingStep := ProcessingStep.idle,
                        finalAudioUrl := none }).stepsVisited ∧
      (processAudio { jsonFile := some [8], introFile := some [6],
                      outroFile := some [4], transcript := none,
                      processingStep := ProcessingStep.idle,
                      finalAudioUrl := none }).final.processingStep ≠
        ProcessingStep.error :=
  C10_no_error_path _ rfl rfl rfl
